import Mathlib

/-!
Verification of the NF-e access-key batch application (`dados_nf_55_app.py`).

The development shallowly embeds the three core components of the source:
the key decoder `parse_nfe_key`, the classification client
`get_cnpj_tax_regime` (with its 429 retry), and the batch orchestrator's
processing loop (pacing policy, per-line validation, row accumulation and
column ordering).  Python strings are modelled as Lean `String`s, with
helper functions mirroring the Python primitives actually used
(`str.strip`, `str.split('\n')`, slicing, `re.sub(r'\D', ...)`,
`str.isdigit`, `int(...)`).  Wall-clock time and sleeps are modelled by an
explicit rational-valued clock threaded through the loop; the remote HTTP
service is modelled by an explicit list of responses consumed by the
client.
-/

namespace DadosNF

/-- Python `str.strip` whitespace class (ASCII fragment actually occurring
in pasted key input). -/
def isPySpace (c : Char) : Bool := c.isWhitespace

/-- Left strip, on the character list. -/
def stripL (l : List Char) : List Char := l.dropWhile isPySpace

/-- Right strip, on the character list. -/
def stripR (l : List Char) : List Char := (l.reverse.dropWhile isPySpace).reverse

/-- Python `s.strip()`. -/
def pyStrip (s : String) : String := (stripR (stripL s.toList)).asString

/-- Python `s.split('\n')` on the character list: splits at every newline,
keeping empty fields. -/
def splitLinesAux : List Char → List Char → List String
  | [], acc => [acc.reverse.asString]
  | c :: cs, acc =>
      if c = '\n' then acc.reverse.asString :: splitLinesAux cs []
      else splitLinesAux cs (c :: acc)

/-- Python `s.split('\n')`. -/
def splitLines (s : String) : List String := splitLinesAux s.toList []

/-- Python slice `s[a:b]` (for the in-range slices used by the decoder). -/
def pySlice (s : String) (a b : Nat) : String :=
  ((s.toList.drop a).take (b - a)).asString

/-- Value of a digit string (helper for Python `int(...)` on digit input). -/
def digitsVal (l : List Char) : Nat :=
  l.foldl (fun acc c => acc * 10 + (c.toNat - '0'.toNat)) 0

/-- Python `int(s)` for the strings reachable here: succeeds exactly on
nonempty all-digit strings, otherwise raises `ValueError` (modelled as
`none`). -/
def pyInt (s : String) : Option Nat :=
  if s ≠ "" ∧ s.toList.all Char.isDigit then some (digitsVal s.toList) else none

/-- Python `s.isdigit()` (ASCII digits). -/
def pyIsDigit (s : String) : Bool :=
  !s.toList.isEmpty && s.toList.all Char.isDigit

/-- Python `re.sub(r'\D', '', cnpj_text)` — keep only digit characters
(source function `clean_cnpj`). -/
def clean_cnpj (cnpj_text : String) : String :=
  (cnpj_text.toList.filter Char.isDigit).asString

/-- The `UF_CODES` static table from the source. -/
def UF_CODES : List (String × String) :=
  [("11", "RO"), ("12", "AC"), ("13", "AM"), ("14", "RR"), ("15", "PA"),
   ("16", "AP"), ("17", "TO"),
   ("21", "MA"), ("22", "PI"), ("23", "CE"), ("24", "RN"), ("25", "PB"),
   ("26", "PE"), ("27", "AL"), ("28", "SE"), ("29", "BA"),
   ("31", "MG"), ("32", "ES"), ("33", "RJ"), ("35", "SP"),
   ("41", "PR"), ("42", "SC"), ("43", "RS"),
   ("50", "MS"), ("51", "MT"), ("52", "GO"), ("53", "DF")]

/-- The `EMISSION_TYPES` static table from the source. -/
def EMISSION_TYPES : List (String × String) :=
  [("1", "Normal (Saída)"),
   ("2", "Contingência FS-IA"),
   ("3", "Contingência SCAN"),
   ("4", "Contingência DPEC"),
   ("5", "Contingência FS-DA"),
   ("6", "Contingência SVC-AN"),
   ("7", "Contingência SVC-RS"),
   ("9", "Contingência Off-line NFC-e")]

/-- The record returned by `parse_nfe_key` (the Python dict's keys, in
source order: "UF", "Ano/Mês Emissão", "CNPJ Emitente", "Modelo Doc.",
"Série", "Número NF-e", "Tipo Emissão"). -/
structure DecodedKey where
  uf : String
  anoMesEmissao : String
  cnpjEmitente : String
  modeloDoc : String
  serie : String
  numeroNfe : String
  tipoEmissao : String
  deriving Repr, DecidableEq

/-- Source function `parse_nfe_key(key)`: fixed-offset slicing of the
44-digit access key plus formatting and table lookups. -/
def parse_nfe_key (key : String) : DecodedKey :=
  let uf_code := pySlice key 0 2
  let year_month_raw := pySlice key 2 6
  let cnpj_emitente := pySlice key 6 20
  let modelo_doc := pySlice key 20 22
  let serie_raw := pySlice key 22 25
  let numero_nfe_raw := pySlice key 25 34
  let tipo_emissao_code := pySlice key 34 35
  let uf_formatted := uf_code ++ " - " ++ ((UF_CODES.lookup uf_code).getD "UF Desconhecida")
  let year_full := "20" ++ pySlice year_month_raw 0 2
  let month_str := pySlice year_month_raw 2 4
  let ano_mes_emissao_formatted :=
    match pyInt month_str with
    | some m => if 1 ≤ m ∧ m ≤ 12 then month_str ++ "/" ++ year_full
                else "Formato Inválido (Mês)"
    | none => "Formato Inválido (Ano/Mês)"
  let tipo_emissao_formatted :=
    tipo_emissao_code ++ " - " ++ ((EMISSION_TYPES.lookup tipo_emissao_code).getD "Tipo Desconhecido")
  let cnpj_formatted :=
    pySlice cnpj_emitente 0 2 ++ "." ++ pySlice cnpj_emitente 2 5 ++ "." ++
    pySlice cnpj_emitente 5 8 ++ "/" ++ pySlice cnpj_emitente 8 12 ++ "-" ++
    (cnpj_emitente.toList.drop 12).asString
  { uf := uf_formatted
    anoMesEmissao := ano_mes_emissao_formatted
    cnpjEmitente := cnpj_formatted
    modeloDoc := modelo_doc
    serie := serie_raw
    numeroNfe := numero_nfe_raw
    tipoEmissao := tipo_emissao_formatted }

/-! ### Classification client `get_cnpj_tax_regime`

The remote service is modelled by an explicit list of responses: each
`requests.get` consumes the head of the list.  An HTTP response carries its
status code and (for 200 bodies) the two nested boolean flags
`company.simei.optant` and `company.simples.optant` as read with their
`.get(..., False)` defaults; transport failures are the remaining
constructors.  The client returns `some (outcome, backoffSeconds)` where
`backoffSeconds` accumulates the `time.sleep(5)` calls made on 429, and
`none` exactly when the response list is exhausted while still retrying
(i.e. the environment answers 429 forever). -/

/-- One observable result of `requests.get` in the source. -/
inductive ApiResponse where
  | response (statusCode : Nat) (simeiOptant simplesOptant : Bool)
  | timeoutExc
  | connectionExc
  | otherExc (msg : String)
  deriving Repr, DecidableEq

/-- The client's input validation:
`not clean_cnpj_num.isdigit() or len(clean_cnpj_num) != 14`. -/
def cnpjRejected (cnpj : String) : Bool :=
  let clean_cnpj_num := clean_cnpj cnpj
  !(pyIsDigit clean_cnpj_num) || clean_cnpj_num.length != 14

/-- Source function `get_cnpj_tax_regime(cnpj)`, with the response list as
the explicit environment.  Mirrors the source's branch order: 14-digit
validation first (no response consumed), then status 200 / 429 (sleep 5 and
recurse on the same `cnpj`) / 404 / other, then the exception handlers. -/
def get_cnpj_tax_regime (cnpj : String) : List ApiResponse → Option (String × Nat)
  | [] =>
    if cnpjRejected cnpj then some ("CNPJ Inválido", 0) else none
  | resp :: rest =>
    if cnpjRejected cnpj then some ("CNPJ Inválido", 0)
    else
      match resp with
        | .response statusCode simeiOptant simplesOptant =>
          if statusCode = 200 then
            if simeiOptant then some ("SIMEI", 0)
            else if simplesOptant then some ("Simples Nacional", 0)
            else some ("Regime Normal / Outros", 0)
          else if statusCode = 429 then
            match get_cnpj_tax_regime cnpj rest with
            | some (r, t) => some (r, t + 5)
            | none => none
          else if statusCode = 404 then
            some ("CNPJ Não Encontrado na API", 0)
          else
            some ("Erro na API (" ++ toString statusCode ++ ")", 0)
        | .timeoutExc => some ("Tempo Limite da API Excedido", 0)
        | .connectionExc => some ("Erro de Conexão com a API", 0)
        | .otherExc msg => some ("Erro Inesperado: " ++ msg, 0)

/-- The enumerated outcome set of the classification client. -/
def IsClientOutcome (r : String) : Prop :=
  r = "CNPJ Inválido" ∨ r = "SIMEI" ∨ r = "Simples Nacional" ∨
  r = "Regime Normal / Outros" ∨ r = "CNPJ Não Encontrado na API" ∨
  (∃ c : Nat, r = "Erro na API (" ++ toString c ++ ")") ∨
  r = "Tempo Limite da API Excedido" ∨ r = "Erro de Conexão com a API" ∨
  (∃ m : String, r = "Erro Inesperado: " ++ m)

/-- A response that the client treats as throttling (HTTP 429). -/
def is429 : ApiResponse → Bool
  | .response 429 _ _ => true
  | _ => false

/-! ### Batch orchestrator -/

/-- The source constant `RATE_LIMIT_SECONDS = 4`, as a rational duration. -/
def RATE_LIMIT_SECONDS : ℚ := 4

/-- One output row: the Python result dict.  Field order follows the
source's `column_order`. -/
structure Row where
  chave : String
  uf : String
  anoMesEmissao : String
  cnpjEmitente : String
  modeloDoc : String
  serie : String
  numeroNfe : String
  tipoEmissao : String
  regime : String
  deriving Repr, DecidableEq

/-- The placeholder row appended for a line failing the 44-digit check:
every derived field is the sentinel "Chave Inválida". -/
def invalidRow (key : String) : Row :=
  { chave := key
    uf := "Chave Inválida"
    anoMesEmissao := "Chave Inválida"
    cnpjEmitente := "Chave Inválida"
    modeloDoc := "Chave Inválida"
    serie := "Chave Inválida"
    numeroNfe := "Chave Inválida"
    tipoEmissao := "Chave Inválida"
    regime := "Chave Inválida" }

/-- The row built for a valid key: `parse_nfe_key` output plus the original
key and the classification of the raw CNPJ extracted from `key[6:20]`.
`classify` abstracts `get_cnpj_tax_regime`'s outcome for one call. -/
def validRow (classify : String → String) (key : String) : Row :=
  let parsed := parse_nfe_key key
  { chave := key
    uf := parsed.uf
    anoMesEmissao := parsed.anoMesEmissao
    cnpjEmitente := parsed.cnpjEmitente
    modeloDoc := parsed.modeloDoc
    serie := parsed.serie
    numeroNfe := parsed.numeroNfe
    tipoEmissao := parsed.tipoEmissao
    regime := classify (clean_cnpj (pySlice key 6 20)) }

/-- The per-line validity test of the loop: `len(key) != 44 or not
key.isdigit()`. -/
def keyInvalid (key : String) : Bool :=
  key.length != 44 || !(pyIsDigit key)

/-- The row the loop appends for one input line. -/
def iterRow (classify : String → String) (key : String) : Row :=
  if keyInvalid key then invalidRow key else validRow classify key

/-- Observable state threaded through the processing loop: the wall clock,
the accumulated `results` list, the CNPJs sent to the classification
client, and the individual sleep durations performed by the pacing code. -/
structure BatchState where
  time : ℚ
  rows : List Row
  calls : List String
  sleeps : List ℚ
  deriving Repr, DecidableEq

/-- The sleep performed by the rate-limit control at iteration `i`: no
sleep on the first iteration, otherwise the residual
`i * RATE_LIMIT_SECONDS - (time.time() - start_time)` when positive. -/
def pacingSleep (i : Nat) (start now : ℚ) : ℚ :=
  let time_to_wait := (i : ℚ) * RATE_LIMIT_SECONDS - (now - start)
  if 0 < i ∧ 0 < time_to_wait then time_to_wait else 0

/-- The `for i, key in enumerate(cleaned_keys)` loop.  At index `i` the
pacing code sleeps `pacingSleep i start st.time`; then the line is
validated (invalid lines append `invalidRow` and make no call), else the
classification call is made, taking `dur cnpj` seconds and returning
`classify cnpj`. -/
def runLoopAux (classify : String → String) (dur : String → ℚ) (start : ℚ) :
    List String → Nat → BatchState → BatchState
  | [], _, st => st
  | key :: rest, i, st =>
    let t1 := st.time + pacingSleep i start st.time
    if keyInvalid key then
      runLoopAux classify dur start rest (i + 1)
        { time := t1
          rows := st.rows ++ [invalidRow key]
          calls := st.calls
          sleeps := st.sleeps ++ [pacingSleep i start st.time] }
    else
      let cnpj_to_query := clean_cnpj (pySlice key 6 20)
      runLoopAux classify dur start rest (i + 1)
        { time := t1 + dur cnpj_to_query
          rows := st.rows ++ [validRow classify key]
          calls := st.calls ++ [cnpj_to_query]
          sleeps := st.sleeps ++ [pacingSleep i start st.time] }

/-- Source line `cleaned_keys = [k.strip() for k in keys_input.split('\n') if k.strip()]`
applied to the stripped text-area input. -/
def cleaned_keys (input : String) : List String :=
  ((splitLines (pyStrip input)).map pyStrip).filter (fun k => k != "")

/-- Result of pressing "Processar Chaves de Acesso": empty input and
batches above 400 keys are rejected before the loop runs. -/
inductive BatchOutcome where
  | emptyInput : BatchOutcome
  | tooLarge : Nat → BatchOutcome
  | processed : BatchState → BatchOutcome
  deriving Repr, DecidableEq

/-- The batch entry point: strip the input, reject empty input, reject more
than 400 cleaned keys, otherwise run the processing loop from the
batch-start timestamp with an empty result list. -/
def process_batch (classify : String → String) (dur : String → ℚ) (start : ℚ)
    (input : String) : BatchOutcome :=
  if pyStrip input = "" then .emptyInput
  else if (cleaned_keys input).length > 400 then .tooLarge (cleaned_keys input).length
  else .processed (runLoopAux classify dur start (cleaned_keys input) 0 ⟨start, [], [], []⟩)

/-- Rows of an outcome (rejected batches have none). -/
def batchRows : BatchOutcome → List Row
  | .processed st => st.rows
  | _ => []

/-- Classification calls of an outcome (rejected batches make none). -/
def batchCalls : BatchOutcome → List String
  | .processed st => st.calls
  | _ => []

/-- The source's `column_order` (numeric code and check digit removed). -/
def column_order : List String :=
  ["Chave de Acesso", "UF", "Ano/Mês Emissão", "CNPJ Emitente",
   "Modelo Doc.", "Série", "Número NF-e", "Tipo Emissão",
   "Regime Tributário"]

/-- Column access on a row by the dict keys used in the source; the `'N/A'`
default mirrors the fill-in before reindexing. -/
def rowGet (r : Row) (col : String) : String :=
  if col = "Chave de Acesso" then r.chave
  else if col = "UF" then r.uf
  else if col = "Ano/Mês Emissão" then r.anoMesEmissao
  else if col = "CNPJ Emitente" then r.cnpjEmitente
  else if col = "Modelo Doc." then r.modeloDoc
  else if col = "Série" then r.serie
  else if col = "Número NF-e" then r.numeroNfe
  else if col = "Tipo Emissão" then r.tipoEmissao
  else if col = "Regime Tributário" then r.regime
  else "N/A"

/-- One exported data row: the cells in `column_order` (the
`df = df[column_order]` reindexing). -/
def rowCells (r : Row) : List String := column_order.map (rowGet r)

/-- The exported table: header row followed by one cell row per result
row, in order. -/
def exportTable (rows : List Row) : List (List String) :=
  column_order :: rows.map rowCells

/-! ### Helper lemmas -/

theorem toList_asString (l : List Char) : (l.asString).toList = l := rfl

theorem length_pySlice (s : String) (a b : Nat) :
    (pySlice s a b).length = min (b - a) (s.length - a) := by
  show ((s.toList.drop a).take (b - a)).length = _
  rw [List.length_take, List.length_drop]
  rfl

/-- Composing Python slices: slicing `[c:d]` out of `s[a:b]` is slicing
`s[a+c:a+d]` whenever `[c:d]` stays inside the window. -/
theorem pySlice_pySlice (s : String) (a b c d : Nat) (h : d ≤ b - a) :
    pySlice (pySlice s a b) c d = pySlice s (a + c) (a + d) := by
  simp only [pySlice, toList_asString]
  congr 1
  rw [List.drop_take, List.take_take, List.drop_drop]
  congr 1
  omega

theorem drop_pySlice (s : String) (a b c : Nat) :
    ((pySlice s a b).toList.drop c).asString = pySlice s (a + c) b := by
  simp only [pySlice, toList_asString]
  congr 1
  rw [List.drop_take, List.drop_drop]
  congr 1
  omega

theorem all_digits_pySlice (s : String) (a b : Nat)
    (h : s.toList.all Char.isDigit = true) :
    (pySlice s a b).toList.all Char.isDigit = true := by
  show ((s.toList.drop a).take (b - a)).all Char.isDigit = true
  rw [List.all_eq_true] at h ⊢
  intro c hc
  exact h c (List.mem_of_mem_drop (List.mem_of_mem_take hc))

theorem pyInt_of_digits (s : String) (hne : s ≠ "")
    (hdig : s.toList.all Char.isDigit = true) :
    pyInt s = some (digitsVal s.toList) := by
  simp only [pyInt]
  rw [if_pos]
  exact ⟨hne, hdig⟩

/-- Every field of `parse_nfe_key` written as a function of slices of the
original key (after collapsing the nested slices of the source). -/
theorem parse_nfe_key_fields (key : String) :
    parse_nfe_key key =
      { uf := pySlice key 0 2 ++ " - " ++
              ((UF_CODES.lookup (pySlice key 0 2)).getD "UF Desconhecida")
        anoMesEmissao :=
          match pyInt (pySlice key 4 6) with
          | some m => if 1 ≤ m ∧ m ≤ 12 then
                        pySlice key 4 6 ++ "/" ++ ("20" ++ pySlice key 2 4)
                      else "Formato Inválido (Mês)"
          | none => "Formato Inválido (Ano/Mês)"
        cnpjEmitente := pySlice key 6 8 ++ "." ++ pySlice key 8 11 ++ "." ++
                        pySlice key 11 14 ++ "/" ++ pySlice key 14 18 ++ "-" ++
                        pySlice key 18 20
        modeloDoc := pySlice key 20 22
        serie := pySlice key 22 25
        numeroNfe := pySlice key 25 34
        tipoEmissao := pySlice key 34 35 ++ " - " ++
              ((EMISSION_TYPES.lookup (pySlice key 34 35)).getD "Tipo Desconhecido") } := by
  simp only [parse_nfe_key]
  rw [pySlice_pySlice key 2 6 0 2 (by omega), pySlice_pySlice key 2 6 2 4 (by omega),
      pySlice_pySlice key 6 20 0 2 (by omega), pySlice_pySlice key 6 20 2 5 (by omega),
      pySlice_pySlice key 6 20 5 8 (by omega), pySlice_pySlice key 6 20 8 12 (by omega),
      drop_pySlice key 6 20 12]

theorem pySlice_ne_empty (s : String) (a b : Nat) (h1 : a < b) (h2 : a < s.length) :
    pySlice s a b ≠ "" := by
  intro hcon
  have hl := length_pySlice s a b
  rw [hcon, show ("" : String).length = 0 from rfl] at hl
  omega

/-! ### Claim theorems: decoder -/

/-- C1: for every valid 44-digit access key, `parse_nfe_key` returns the
substrings of the key at fixed offsets (region code chars 0-2, year/month
chars 2-6, issuer tax id chars 6-20 rendered with punctuation, model
chars 20-22, series chars 22-25, number chars 25-34, emission-type char
34), the region rendered as "code - name" through the static `UF_CODES`
table (with "35" mapping to SP and unknown codes such as "99" to the
deterministic label "UF Desconhecida"); in particular the key
"35250101624149000538550010001098421003295263" yields Region "35 - SP",
Year/Month "01/2025" and Issuer Tax Id "01.624.149/0005-38". -/
theorem claim_C1_decoder_offsets (key : String) (hlen : key.length = 44)
    (hdig : key.toList.all Char.isDigit = true) :
    ((parse_nfe_key key).uf
        = pySlice key 0 2 ++ " - " ++ ((UF_CODES.lookup (pySlice key 0 2)).getD "UF Desconhecida")
      ∧ (parse_nfe_key key).cnpjEmitente
        = pySlice key 6 8 ++ "." ++ pySlice key 8 11 ++ "." ++ pySlice key 11 14 ++ "/" ++
          pySlice key 14 18 ++ "-" ++ pySlice key 18 20
      ∧ (parse_nfe_key key).modeloDoc = pySlice key 20 22
      ∧ (parse_nfe_key key).serie = pySlice key 22 25
      ∧ (parse_nfe_key key).numeroNfe = pySlice key 25 34
      ∧ (parse_nfe_key key).tipoEmissao
        = pySlice key 34 35 ++ " - " ++
          ((EMISSION_TYPES.lookup (pySlice key 34 35)).getD "Tipo Desconhecido"))
    ∧ UF_CODES.lookup "35" = some "SP"
    ∧ UF_CODES.lookup "99" = none
    ∧ (parse_nfe_key ("99" ++ pySlice "35250101624149000538550010001098421003295263" 2 44)).uf
        = "99 - UF Desconhecida"
    ∧ (parse_nfe_key "35250101624149000538550010001098421003295263").uf = "35 - SP"
    ∧ (parse_nfe_key "35250101624149000538550010001098421003295263").anoMesEmissao = "01/2025"
    ∧ (parse_nfe_key "35250101624149000538550010001098421003295263").cnpjEmitente
        = "01.624.149/0005-38" := by
  refine ⟨?_, by decide, by decide, by decide, by decide, by decide, by decide⟩
  rw [parse_nfe_key_fields key]
  exact ⟨rfl, rfl, rfl, rfl, rfl, rfl⟩

/-- Witness for C1 at the spec's end-to-end key. -/
theorem claim_C1_decoder_offsets_witness :
    ("35250101624149000538550010001098421003295263" : String).length = 44 ∧
    (parse_nfe_key "35250101624149000538550010001098421003295263").uf = "35 - SP" :=
  ⟨by decide,
   (claim_C1_decoder_offsets "35250101624149000538550010001098421003295263"
      (by decide) (by decide)).2.2.2.2.1⟩

/-- C7: for every 44-digit key the embedded two-digit year YY is rendered
as 20YY and the month sub-field (chars 4-6) is range-checked: a month in
1–12 yields "MM/20YY", a month outside 1–12 yields the explicit marker
"Formato Inválido (Mês)" rather than a decode failure; in particular the
embedded "2501" yields "01/2025" and an embedded month "13" yields the
invalid-month marker. -/
theorem claim_C7_year_month (key : String) (hlen : key.length = 44)
    (hdig : key.toList.all Char.isDigit = true) :
    (∃ m : Nat, pyInt (pySlice key 4 6) = some m ∧
      ((1 ≤ m ∧ m ≤ 12 →
         (parse_nfe_key key).anoMesEmissao
           = pySlice key 4 6 ++ "/" ++ ("20" ++ pySlice key 2 4))
       ∧ (¬ (1 ≤ m ∧ m ≤ 12) →
         (parse_nfe_key key).anoMesEmissao = "Formato Inválido (Mês)")))
    ∧ (parse_nfe_key "35250101624149000538550010001098421003295263").anoMesEmissao = "01/2025"
    ∧ (parse_nfe_key "35251301624149000538550010001098421003295263").anoMesEmissao
        = "Formato Inválido (Mês)" := by
  refine ⟨?_, by decide, by decide⟩
  have hne : pySlice key 4 6 ≠ "" := pySlice_ne_empty key 4 6 (by omega) (by omega)
  have hdig6 := all_digits_pySlice key 4 6 hdig
  have hmes : (parse_nfe_key key).anoMesEmissao =
      if 1 ≤ digitsVal (pySlice key 4 6).toList ∧ digitsVal (pySlice key 4 6).toList ≤ 12
      then pySlice key 4 6 ++ "/" ++ ("20" ++ pySlice key 2 4)
      else "Formato Inválido (Mês)" := by
    rw [parse_nfe_key_fields key]
    show (match pyInt (pySlice key 4 6) with
          | some m => if 1 ≤ m ∧ m ≤ 12 then pySlice key 4 6 ++ "/" ++ ("20" ++ pySlice key 2 4)
                      else "Formato Inválido (Mês)"
          | none => "Formato Inválido (Ano/Mês)") = _
    rw [pyInt_of_digits _ hne hdig6]
  refine ⟨digitsVal (pySlice key 4 6).toList, pyInt_of_digits _ hne hdig6, ?_, ?_⟩
  · intro hm
    rw [hmes, if_pos hm]
  · intro hm
    rw [hmes, if_neg hm]

/-- Witness for C7 at the spec's two example embeddings. -/
theorem claim_C7_year_month_witness :
    (parse_nfe_key "35250101624149000538550010001098421003295263").anoMesEmissao = "01/2025" ∧
    (parse_nfe_key "35251301624149000538550010001098421003295263").anoMesEmissao
      = "Formato Inválido (Mês)" :=
  ⟨(claim_C7_year_month "35250101624149000538550010001098421003295263"
      (by decide) (by decide)).2.1,
   (claim_C7_year_month "35251301624149000538550010001098421003295263"
      (by decide) (by decide)).2.2⟩

/-! ### Claim theorems: classification client -/

theorem clean_cnpj_all_digits (s : String) :
    (clean_cnpj s).toList.all Char.isDigit = true := by
  show (s.toList.filter Char.isDigit).all Char.isDigit = true
  rw [List.all_eq_true]
  intro c hc
  exact (List.mem_filter.mp hc).2

/-- The client's rejection test is exactly "the cleaned id is not 14
digits": the `isdigit()` conjunct is redundant after `re.sub(r'\D', ...)`
except on the empty string, which the length test also rejects. -/
theorem cnpjRejected_eq (s : String) :
    cnpjRejected s = ((clean_cnpj s).length != 14) := by
  by_cases h : (clean_cnpj s).length = 14
  · have hlist : (clean_cnpj s).toList.length = 14 := h
    have hne : (clean_cnpj s).toList.isEmpty = false := by
      cases hl : (clean_cnpj s).toList with
      | nil => rw [hl] at hlist; simp at hlist
      | cons a l => rfl
    have hpy : pyIsDigit (clean_cnpj s) = true := by
      unfold pyIsDigit
      rw [Bool.and_eq_true, Bool.not_eq_true']
      exact ⟨hne, clean_cnpj_all_digits s⟩
    simp [cnpjRejected, hpy, h]
  · simp [cnpjRejected, h]

theorem get_cnpj_invalid (cnpj : String) (h : (clean_cnpj cnpj).length ≠ 14)
    (rs : List ApiResponse) :
    get_cnpj_tax_regime cnpj rs = some ("CNPJ Inválido", 0) := by
  have hr : cnpjRejected cnpj = true := by
    rw [cnpjRejected_eq]
    simpa using h
  cases rs <;> simp [get_cnpj_tax_regime, hr]

theorem cnpjRejected_false (cnpj : String) (h : (clean_cnpj cnpj).length = 14) :
    cnpjRejected cnpj = false := by
  rw [cnpjRejected_eq]
  simp [h]

theorem get_cnpj_200 (cnpj : String) (hr : cnpjRejected cnpj = false)
    (simei simples : Bool) (rs : List ApiResponse) :
    get_cnpj_tax_regime cnpj (.response 200 simei simples :: rs)
      = some ((if simei then "SIMEI"
               else if simples then "Simples Nacional"
               else "Regime Normal / Outros"), 0) := by
  cases simei <;> cases simples <;> simp [get_cnpj_tax_regime, hr]

/-- C2: `get_cnpj_tax_regime` first strips non-digits; a cleaned id that is
not exactly 14 digits yields "CNPJ Inválido" regardless of the service (no
response is consumed, the result holds for every response list including
the empty one).  For a valid id the head response is mapped: HTTP 200 with
`simei.optant` → "SIMEI", else `simples.optant` → "Simples Nacional", else
"Regime Normal / Outros"; 404 → "CNPJ Não Encontrado na API"; any other
non-429 status c → "Erro na API (c)"; a transport timeout → "Tempo Limite
da API Excedido"; a connection failure → "Erro de Conexão com a API". -/
theorem claim_C2_client_mapping :
    (∀ cnpj : String, (clean_cnpj cnpj).length ≠ 14 →
       ∀ rs : List ApiResponse,
         get_cnpj_tax_regime cnpj rs = some ("CNPJ Inválido", 0))
    ∧ (∀ cnpj : String, (clean_cnpj cnpj).length = 14 →
       ∀ (rs : List ApiResponse) (simei simples : Bool),
         (get_cnpj_tax_regime cnpj (.response 200 simei simples :: rs)
            = some ((if simei then "SIMEI"
                     else if simples then "Simples Nacional"
                     else "Regime Normal / Outros"), 0))
         ∧ (get_cnpj_tax_regime cnpj (.response 404 simei simples :: rs)
            = some ("CNPJ Não Encontrado na API", 0))
         ∧ (∀ code : Nat, code ≠ 200 → code ≠ 429 → code ≠ 404 →
              get_cnpj_tax_regime cnpj (.response code simei simples :: rs)
                = some ("Erro na API (" ++ toString code ++ ")", 0))
         ∧ (get_cnpj_tax_regime cnpj (.timeoutExc :: rs)
            = some ("Tempo Limite da API Excedido", 0))
         ∧ (get_cnpj_tax_regime cnpj (.connectionExc :: rs)
            = some ("Erro de Conexão com a API", 0))) := by
  refine ⟨fun cnpj h rs => get_cnpj_invalid cnpj h rs, fun cnpj h rs simei simples => ?_⟩
  have hr := cnpjRejected_false cnpj h
  refine ⟨?_, ?_, fun code h200 h429 h404 => ?_, ?_, ?_⟩
  · cases simei <;> cases simples <;> simp [get_cnpj_tax_regime, hr]
  · simp [get_cnpj_tax_regime, hr]
  · simp [get_cnpj_tax_regime, hr, h200, h429, h404]
  · simp [get_cnpj_tax_regime, hr]
  · simp [get_cnpj_tax_regime, hr]

/-- Witness for C2: an id with stray punctuation that cleans to fewer than
14 digits is rejected with no responses available at all, and a valid
14-digit id maps a 200/404/500/timeout/connection head as specified. -/
theorem claim_C2_client_mapping_witness :
    get_cnpj_tax_regime "12.345-67" [] = some ("CNPJ Inválido", 0) ∧
    get_cnpj_tax_regime "01624149000538" [.response 200 true false]
      = some ("SIMEI", 0) ∧
    get_cnpj_tax_regime "01624149000538" [.response 500 false false]
      = some ("Erro na API (500)", 0) :=
  ⟨claim_C2_client_mapping.1 "12.345-67" (by decide) [],
   by
     have h := (claim_C2_client_mapping.2 "01624149000538" (by decide) [] true false).1
     simpa using h,
   (claim_C2_client_mapping.2 "01624149000538" (by decide) [] false false).2.2.1 500
     (by decide) (by decide) (by decide)⟩

/-- C6: on HTTP 429 the client sleeps a fixed 5 seconds and retries with no
retry cap: for any finite run of 429 responses followed by a success
response, the call terminates with the success outcome and accumulates
exactly 5 seconds of backoff per 429 seen — hence at least one 5-second
backoff when at least one 429 occurred. -/
theorem claim_C6_retry_throttle (cnpj : String) (h : (clean_cnpj cnpj).length = 14)
    (n : Nat) (b1 b2 simei simples : Bool) (rest : List ApiResponse) :
    get_cnpj_tax_regime cnpj
        (List.replicate n (.response 429 b1 b2) ++ .response 200 simei simples :: rest)
      = some ((if simei then "SIMEI"
               else if simples then "Simples Nacional"
               else "Regime Normal / Outros"), 5 * n)
    ∧ (1 ≤ n → 5 ≤ 5 * n) := by
  have hr := cnpjRejected_false cnpj h
  refine ⟨?_, fun hn => by omega⟩
  induction n with
  | zero =>
    cases simei <;> cases simples <;> simp [get_cnpj_tax_regime, hr]
  | succ k ih =>
    rw [List.replicate_succ, List.cons_append]
    simp [get_cnpj_tax_regime, hr, ih, Nat.mul_succ]

/-- Witness for C6: one 429 then a success. -/
theorem claim_C6_retry_throttle_witness :
    get_cnpj_tax_regime "01624149000538"
        [.response 429 false false, .response 200 true false]
      = some ("SIMEI", 5) ∧ 5 ≤ 5 * 1 := by
  have h := claim_C6_retry_throttle "01624149000538" (by decide) 1 false false true false []
  constructor
  · have h1 := h.1
    simpa using h1
  · exact h.2 (by decide)

/-- C9: the classification client is total and never raises: whenever it
returns (which it does as soon as any non-429 response arrives), the
returned string belongs to the enumerated outcome set; exhaustion of the
response list (`none`) can only happen while every response is a 429. -/
theorem claim_C9_client_total :
    (∀ (cnpj : String) (rs : List ApiResponse) (r : String) (t : Nat),
        get_cnpj_tax_regime cnpj rs = some (r, t) → IsClientOutcome r)
    ∧ (∀ (cnpj : String) (rs : List ApiResponse),
        (∃ x ∈ rs, is429 x = false) →
        ∃ out, get_cnpj_tax_regime cnpj rs = some out) := by
  constructor
  · intro cnpj rs
    induction rs with
    | nil =>
      intro r t hget
      by_cases hr : cnpjRejected cnpj = true
      · simp [get_cnpj_tax_regime, hr] at hget
        exact Or.inl hget.1.symm
      · simp [get_cnpj_tax_regime, hr] at hget
    | cons resp rest ih =>
      intro r t hget
      by_cases hr : cnpjRejected cnpj = true
      · simp [get_cnpj_tax_regime, hr] at hget
        exact Or.inl hget.1.symm
      · rw [Bool.not_eq_true] at hr
        cases resp with
        | response code simei simples =>
          by_cases h200 : code = 200
          · subst h200
            cases simei <;> cases simples <;>
              simp [get_cnpj_tax_regime, hr] at hget <;>
              simp [IsClientOutcome, hget.1.symm]
          · by_cases h429 : code = 429
            · subst h429
              simp [get_cnpj_tax_regime, hr] at hget
              cases hrec : get_cnpj_tax_regime cnpj rest with
              | none => rw [hrec] at hget; simp at hget
              | some out =>
                rw [hrec] at hget
                cases out with
                | mk r0 t0 =>
                  simp at hget
                  exact hget.1 ▸ ih r0 t0 hrec
            · by_cases h404 : code = 404
              · subst h404
                simp [get_cnpj_tax_regime, hr] at hget
                simp [IsClientOutcome, hget.1.symm]
              · simp [get_cnpj_tax_regime, hr, h200, h429, h404] at hget
                refine Or.inr (Or.inr (Or.inr (Or.inr (Or.inr (Or.inl ⟨code, ?_⟩)))))
                exact hget.1.symm
        | timeoutExc =>
          simp [get_cnpj_tax_regime, hr] at hget
          simp [IsClientOutcome, hget.1.symm]
        | connectionExc =>
          simp [get_cnpj_tax_regime, hr] at hget
          simp [IsClientOutcome, hget.1.symm]
        | otherExc msg =>
          simp [get_cnpj_tax_regime, hr] at hget
          refine Or.inr (Or.inr (Or.inr (Or.inr (Or.inr (Or.inr (Or.inr (Or.inr ⟨msg, ?_⟩)))))))
          exact hget.1.symm
  · intro cnpj rs
    induction rs with
    | nil =>
      rintro ⟨x, hx, -⟩
      exact absurd hx (List.not_mem_nil x)
    | cons resp rest ih =>
      rintro ⟨x, hx, hx429⟩
      by_cases hr : cnpjRejected cnpj = true
      · exact ⟨("CNPJ Inválido", 0), by cases rest <;> simp [get_cnpj_tax_regime, hr]⟩
      · rw [Bool.not_eq_true] at hr
        cases resp with
        | response code simei simples =>
          by_cases h200 : code = 200
          · subst h200
            exact ⟨_, get_cnpj_200 cnpj hr simei simples rest⟩
          · by_cases h429 : code = 429
            · subst h429
              have hxrest : x ∈ rest := by
                rcases List.mem_cons.mp hx with heq | hmem
                · subst heq
                  simp [is429] at hx429
                · exact hmem
              obtain ⟨⟨r0, t0⟩, hrec⟩ := ih ⟨x, hxrest, hx429⟩
              exact ⟨(r0, t0 + 5), by simp [get_cnpj_tax_regime, hr, hrec]⟩
            · by_cases h404 : code = 404
              · subst h404
                exact ⟨("CNPJ Não Encontrado na API", 0),
                  by simp [get_cnpj_tax_regime, hr]⟩
              · exact ⟨("Erro na API (" ++ toString code ++ ")", 0),
                  by simp [get_cnpj_tax_regime, hr, h200, h429, h404]⟩
        | timeoutExc =>
          exact ⟨("Tempo Limite da API Excedido", 0), by simp [get_cnpj_tax_regime, hr]⟩
        | connectionExc =>
          exact ⟨("Erro de Conexão com a API", 0), by simp [get_cnpj_tax_regime, hr]⟩
        | otherExc msg =>
          exact ⟨("Erro Inesperado: " ++ msg, 0), by simp [get_cnpj_tax_regime, hr]⟩

/-- Witness for C9: a timeout response yields an enumerated outcome, and a
non-429 response guarantees a returned value. -/
theorem claim_C9_client_total_witness :
    IsClientOutcome "Tempo Limite da API Excedido" ∧
    ∃ out, get_cnpj_tax_regime "01624149000538" [.timeoutExc] = some out :=
  ⟨claim_C9_client_total.1 "01624149000538" [.timeoutExc]
      "Tempo Limite da API Excedido" 0 (by decide),
   claim_C9_client_total.2 "01624149000538" [.timeoutExc]
      ⟨.timeoutExc, by simp, by decide⟩⟩

/-! ### Claim theorems: batch orchestrator -/

theorem pacingSleep_def (i : Nat) (start now : ℚ) :
    pacingSleep i start now =
      if 0 < i ∧ 0 < (i : ℚ) * RATE_LIMIT_SECONDS - (now - start)
      then (i : ℚ) * RATE_LIMIT_SECONDS - (now - start) else 0 := rfl

theorem pacingSleep_nonneg (i : Nat) (start now : ℚ) : 0 ≤ pacingSleep i start now := by
  rw [pacingSleep_def]
  split
  · next h => linarith [h.2]
  · exact le_refl 0

theorem pacingSleep_zero_at_first (start now : ℚ) : pacingSleep 0 start now = 0 := by
  rw [pacingSleep_def, if_neg]
  rintro ⟨h, -⟩
  exact absurd h (lt_irrefl 0)

theorem pacingSleep_zero_past_target (i : Nat) (start now : ℚ)
    (h : (i : ℚ) * RATE_LIMIT_SECONDS ≤ now - start) :
    pacingSleep i start now = 0 := by
  rw [pacingSleep_def, if_neg]
  rintro ⟨-, h2⟩
  linarith

/-- After the pacing sleep at an iteration `i ≥ 1`, the elapsed time has
reached the target `i * RATE_LIMIT_SECONDS`. -/
theorem pacingSleep_reaches_target (i : Nat) (start now : ℚ) (hi : 1 ≤ i) :
    start + (i : ℚ) * RATE_LIMIT_SECONDS ≤ now + pacingSleep i start now := by
  rw [pacingSleep_def]
  split
  · next h => linarith
  · next h =>
    rw [not_and_or] at h
    rcases h with h | h
    · omega
    · push_neg at h
      linarith

/-- The state passed to the next iteration after an invalid line. -/
def stepStInvalid (key : String) (i : Nat) (start : ℚ) (st : BatchState) : BatchState :=
  { time := st.time + pacingSleep i start st.time
    rows := st.rows ++ [invalidRow key]
    calls := st.calls
    sleeps := st.sleeps ++ [pacingSleep i start st.time] }

/-- The state passed to the next iteration after a valid line. -/
def stepStValid (classify : String → String) (dur : String → ℚ) (key : String)
    (i : Nat) (start : ℚ) (st : BatchState) : BatchState :=
  { time := (st.time + pacingSleep i start st.time) + dur (clean_cnpj (pySlice key 6 20))
    rows := st.rows ++ [validRow classify key]
    calls := st.calls ++ [clean_cnpj (pySlice key 6 20)]
    sleeps := st.sleeps ++ [pacingSleep i start st.time] }

theorem runLoopAux_nil (classify : String → String) (dur : String → ℚ) (start : ℚ)
    (i : Nat) (st : BatchState) :
    runLoopAux classify dur start [] i st = st := rfl

theorem runLoopAux_cons_invalid (classify : String → String) (dur : String → ℚ)
    (start : ℚ) (key : String) (rest : List String) (i : Nat) (st : BatchState)
    (hk : keyInvalid key = true) :
    runLoopAux classify dur start (key :: rest) i st
      = runLoopAux classify dur start rest (i + 1) (stepStInvalid key i start st) := by
  rw [runLoopAux, if_pos hk]
  rfl

theorem runLoopAux_cons_valid (classify : String → String) (dur : String → ℚ)
    (start : ℚ) (key : String) (rest : List String) (i : Nat) (st : BatchState)
    (hk : keyInvalid key = false) :
    runLoopAux classify dur start (key :: rest) i st
      = runLoopAux classify dur start rest (i + 1) (stepStValid classify dur key i start st) := by
  rw [runLoopAux, if_neg]
  · rfl
  · simp [hk]

theorem runLoopAux_rows (classify : String → String) (dur : String → ℚ) (start : ℚ) :
    ∀ (keys : List String) (i : Nat) (st : BatchState),
      (runLoopAux classify dur start keys i st).rows
        = st.rows ++ keys.map (iterRow classify) := by
  intro keys
  induction keys with
  | nil => intro i st; simp [runLoopAux_nil]
  | cons key rest ih =>
    intro i st
    by_cases hk : keyInvalid key = true
    · rw [runLoopAux_cons_invalid classify dur start key rest i st hk, ih]
      simp [stepStInvalid, iterRow, hk]
    · rw [Bool.not_eq_true] at hk
      rw [runLoopAux_cons_valid classify dur start key rest i st hk, ih]
      simp [stepStValid, iterRow, hk]

theorem runLoopAux_calls_invalid (classify : String → String) (dur : String → ℚ)
    (start : ℚ) :
    ∀ (keys : List String) (i : Nat) (st : BatchState),
      (∀ k ∈ keys, keyInvalid k = true) →
      (runLoopAux classify dur start keys i st).calls = st.calls := by
  intro keys
  induction keys with
  | nil => intro i st _; simp [runLoopAux_nil]
  | cons key rest ih =>
    intro i st hall
    have hk : keyInvalid key = true := hall key (List.mem_cons_self key rest)
    rw [runLoopAux_cons_invalid classify dur start key rest i st hk]
    exact ih (i + 1) _ (fun k hkmem => hall k (List.mem_cons_of_mem key hkmem))

theorem runLoopAux_sleeps_prefix (classify : String → String) (dur : String → ℚ)
    (start : ℚ) :
    ∀ (keys : List String) (i : Nat) (st : BatchState),
      ∃ tail, (runLoopAux classify dur start keys i st).sleeps = st.sleeps ++ tail := by
  intro keys
  induction keys with
  | nil => intro i st; exact ⟨[], by simp [runLoopAux_nil]⟩
  | cons key rest ih =>
    intro i st
    by_cases hk : keyInvalid key = true
    · rw [runLoopAux_cons_invalid classify dur start key rest i st hk]
      obtain ⟨tail, htail⟩ := ih (i + 1) (stepStInvalid key i start st)
      refine ⟨pacingSleep i start st.time :: tail, ?_⟩
      rw [htail]
      simp [stepStInvalid]
    · rw [Bool.not_eq_true] at hk
      rw [runLoopAux_cons_valid classify dur start key rest i st hk]
      obtain ⟨tail, htail⟩ := ih (i + 1) (stepStValid classify dur key i start st)
      refine ⟨pacingSleep i start st.time :: tail, ?_⟩
      rw [htail]
      simp [stepStValid]

theorem runLoopAux_time_mono (classify : String → String) (dur : String → ℚ)
    (start : ℚ) (hdur : ∀ s, 0 ≤ dur s) :
    ∀ (keys : List String) (i : Nat) (st : BatchState),
      st.time ≤ (runLoopAux classify dur start keys i st).time := by
  intro keys
  induction keys with
  | nil => intro i st; simp [runLoopAux_nil]
  | cons key rest ih =>
    intro i st
    have hsleep := pacingSleep_nonneg i start st.time
    by_cases hk : keyInvalid key = true
    · rw [runLoopAux_cons_invalid classify dur start key rest i st hk]
      refine le_trans ?_ (ih (i + 1) (stepStInvalid key i start st))
      show st.time ≤ st.time + pacingSleep i start st.time
      linarith
    · rw [Bool.not_eq_true] at hk
      rw [runLoopAux_cons_valid classify dur start key rest i st hk]
      refine le_trans ?_ (ih (i + 1) (stepStValid classify dur key i start st))
      show st.time ≤ (st.time + pacingSleep i start st.time) + dur (clean_cnpj (pySlice key 6 20))
      have := hdur (clean_cnpj (pySlice key 6 20))
      linarith

theorem runLoopAux_time_lower (classify : String → String) (dur : String → ℚ)
    (start : ℚ) (hdur : ∀ s, 0 ≤ dur s) :
    ∀ (keys : List String) (i : Nat) (st : BatchState), keys ≠ [] →
      2 ≤ i + keys.length →
      start + ((i + keys.length - 1 : ℕ) : ℚ) * RATE_LIMIT_SECONDS
        ≤ (runLoopAux classify dur start keys i st).time := by
  intro keys
  induction keys with
  | nil => intro i st hne _; exact absurd rfl hne
  | cons key rest ih =>
    intro i st _ h2
    cases rest with
    | nil =>
      have hi : 1 ≤ i := by
        rw [List.length_cons, List.length_nil] at h2
        omega
      have hidx : ((i + [key].length - 1 : ℕ) : ℚ) = (i : ℚ) := by
        simp
      rw [hidx]
      have ht1 := pacingSleep_reaches_target i start st.time hi
      by_cases hk : keyInvalid key = true
      · rw [runLoopAux_cons_invalid classify dur start key [] i st hk, runLoopAux_nil]
        show _ ≤ st.time + pacingSleep i start st.time
        linarith
      · rw [Bool.not_eq_true] at hk
        rw [runLoopAux_cons_valid classify dur start key [] i st hk, runLoopAux_nil]
        show _ ≤ (st.time + pacingSleep i start st.time) + dur (clean_cnpj (pySlice key 6 20))
        have := hdur (clean_cnpj (pySlice key 6 20))
        linarith
    | cons key2 rest2 =>
      have hidx : (i + (key :: key2 :: rest2).length - 1 : ℕ)
          = ((i + 1) + (key2 :: rest2).length - 1 : ℕ) := by
        simp only [List.length_cons]
        omega
      rw [hidx]
      by_cases hk : keyInvalid key = true
      · rw [runLoopAux_cons_invalid classify dur start key (key2 :: rest2) i st hk]
        exact ih (i + 1) _ (by simp) (by simp only [List.length_cons]; omega)
      · rw [Bool.not_eq_true] at hk
        rw [runLoopAux_cons_valid classify dur start key (key2 :: rest2) i st hk]
        exact ih (i + 1) _ (by simp) (by simp only [List.length_cons]; omega)

/-- The first sleep performed when a line is processed at index `i` is the
pacing sleep, whatever the line's validity. -/
theorem runLoopAux_head_sleep (classify : String → String) (dur : String → ℚ)
    (start : ℚ) (key : String) (rest : List String) (i : Nat) (st : BatchState) :
    ∃ tail, (runLoopAux classify dur start (key :: rest) i st).sleeps
      = st.sleeps ++ pacingSleep i start st.time :: tail := by
  by_cases hk : keyInvalid key = true
  · rw [runLoopAux_cons_invalid classify dur start key rest i st hk]
    obtain ⟨tail, ht⟩ := runLoopAux_sleeps_prefix classify dur start rest (i + 1)
      (stepStInvalid key i start st)
    refine ⟨tail, ?_⟩
    rw [ht]
    simp [stepStInvalid]
  · rw [Bool.not_eq_true] at hk
    rw [runLoopAux_cons_valid classify dur start key rest i st hk]
    obtain ⟨tail, ht⟩ := runLoopAux_sleeps_prefix classify dur start rest (i + 1)
      (stepStValid classify dur key i start st)
    refine ⟨tail, ?_⟩
    rw [ht]
    simp [stepStValid]

/-- Total elapsed time of the loop started at the batch timestamp is at
least `(N - 1) * RATE_LIMIT_SECONDS` for `N` input lines. -/
theorem runLoopAux_total_time (classify : String → String) (dur : String → ℚ)
    (start : ℚ) (hdur : ∀ s, 0 ≤ dur s) (keys : List String) (hne : keys ≠ []) :
    start + ((keys.length - 1 : ℕ) : ℚ) * RATE_LIMIT_SECONDS
      ≤ (runLoopAux classify dur start keys 0 ⟨start, [], [], []⟩).time := by
  cases keys with
  | nil => exact absurd rfl hne
  | cons k rest =>
    cases rest with
    | nil =>
      have hmono := runLoopAux_time_mono classify dur start hdur [k] 0 ⟨start, [], [], []⟩
      have : ((([k] : List String).length - 1 : ℕ) : ℚ) = 0 := by simp
      rw [this]
      simpa using hmono
    | cons k2 r2 =>
      have hlow := runLoopAux_time_lower classify dur start hdur (k :: k2 :: r2) 0
        ⟨start, [], [], []⟩ (by simp) (by simp only [List.length_cons]; omega)
      simpa using hlow

/-- C3: the pacing policy computes the target elapsed time for iteration
`i ≥ 1` as `i * RATE_LIMIT_SECONDS` from the single batch-start timestamp
and sleeps only the non-negative residual to that target (zero residual
when the target is already passed); the very first call incurs no initial
wait; consequently for `N` input lines with non-negative (in particular,
instantaneous) classification call durations, the total elapsed time is at
least `(N - 1) * 4` seconds. -/
theorem claim_C3_pacing_policy (classify : String → String) (dur : String → ℚ)
    (start : ℚ) (hdur : ∀ s, 0 ≤ dur s) (keys : List String) (hne : keys ≠ []) :
    (∃ tail, (runLoopAux classify dur start keys 0 ⟨start, [], [], []⟩).sleeps
        = 0 :: tail)
    ∧ (∀ (key : String) (rest : List String) (i : Nat) (st : BatchState), 0 < i →
        ∃ tail, (runLoopAux classify dur start (key :: rest) i st).sleeps
          = st.sleeps ++
            (if 0 < (i : ℚ) * RATE_LIMIT_SECONDS - (st.time - start)
             then (i : ℚ) * RATE_LIMIT_SECONDS - (st.time - start) else 0) :: tail)
    ∧ (∀ (key : String) (rest : List String) (i : Nat) (st : BatchState),
        (i : ℚ) * RATE_LIMIT_SECONDS ≤ st.time - start →
        ∃ tail, (runLoopAux classify dur start (key :: rest) i st).sleeps
          = st.sleeps ++ 0 :: tail)
    ∧ start + ((keys.length - 1 : ℕ) : ℚ) * RATE_LIMIT_SECONDS
        ≤ (runLoopAux classify dur start keys 0 ⟨start, [], [], []⟩).time := by
  refine ⟨?_, ?_, ?_, runLoopAux_total_time classify dur start hdur keys hne⟩
  · cases keys with
    | nil => exact absurd rfl hne
    | cons key rest =>
      obtain ⟨tail, ht⟩ := runLoopAux_head_sleep classify dur start key rest 0
        ⟨start, [], [], []⟩
      refine ⟨tail, ?_⟩
      rw [ht]
      simp [pacingSleep_zero_at_first]
  · intro key rest i st hi
    obtain ⟨tail, ht⟩ := runLoopAux_head_sleep classify dur start key rest i st
    refine ⟨tail, ?_⟩
    rw [ht]
    congr 1
    rw [pacingSleep_def]
    by_cases hw : 0 < (i : ℚ) * RATE_LIMIT_SECONDS - (st.time - start)
    · rw [if_pos ⟨hi, hw⟩, if_pos hw]
    · rw [if_neg (fun hc => hw hc.2), if_neg hw]
  · intro key rest i st hpast
    obtain ⟨tail, ht⟩ := runLoopAux_head_sleep classify dur start key rest i st
    refine ⟨tail, ?_⟩
    rw [ht, pacingSleep_zero_past_target i start st.time hpast]

/-- Witness for C3: two instantaneous items starting at time 0 — no
initial wait and at least 4 seconds total. -/
theorem claim_C3_pacing_policy_witness :
    (∃ tail, (runLoopAux (fun _ => "Regime Normal / Outros") (fun _ => 0) 0
        ["1", "2"] 0 ⟨0, [], [], []⟩).sleeps = 0 :: tail)
    ∧ (0 : ℚ) + (((["1", "2"] : List String).length - 1 : ℕ) : ℚ) * RATE_LIMIT_SECONDS
        ≤ (runLoopAux (fun _ => "Regime Normal / Outros") (fun _ => 0) 0
        ["1", "2"] 0 ⟨0, [], [], []⟩).time :=
  ⟨(claim_C3_pacing_policy (fun _ => "Regime Normal / Outros") (fun _ => 0) 0
      (fun _ => le_refl 0) ["1", "2"] (by decide)).1,
   (claim_C3_pacing_policy (fun _ => "Regime Normal / Outros") (fun _ => 0) 0
      (fun _ => le_refl 0) ["1", "2"] (by decide)).2.2.2⟩

/-- C10: the pacing sleep runs before the per-line key validation, so every
non-blank line — including invalid keys, which trigger no classification
call — consumes a full pacing slot: a batch of `N` all-invalid lines makes
zero classification calls, still emits `N` rows, and still takes at least
`(N - 1) * 4` seconds. -/
theorem claim_C10_invalid_lines_consume_slots (classify : String → String)
    (dur : String → ℚ) (start : ℚ) (hdur : ∀ s, 0 ≤ dur s)
    (keys : List String) (hne : keys ≠ [])
    (hinv : ∀ k ∈ keys, keyInvalid k = true) :
    (runLoopAux classify dur start keys 0 ⟨start, [], [], []⟩).calls = []
    ∧ (runLoopAux classify dur start keys 0 ⟨start, [], [], []⟩).rows.length = keys.length
    ∧ start + ((keys.length - 1 : ℕ) : ℚ) * RATE_LIMIT_SECONDS
        ≤ (runLoopAux classify dur start keys 0 ⟨start, [], [], []⟩).time := by
  refine ⟨?_, ?_, runLoopAux_total_time classify dur start hdur keys hne⟩
  · exact runLoopAux_calls_invalid classify dur start keys 0 ⟨start, [], [], []⟩ hinv
  · rw [runLoopAux_rows]
    simp

/-- Witness for C10: two invalid lines, instantaneous calls — no calls at
all yet 4 seconds minimum. -/
theorem claim_C10_invalid_lines_consume_slots_witness :
    (runLoopAux (fun _ => "X") (fun _ => 0) 0 ["a", "b"] 0 ⟨0, [], [], []⟩).calls = []
    ∧ (0 : ℚ) + (((["a", "b"] : List String).length - 1 : ℕ) : ℚ) * RATE_LIMIT_SECONDS
        ≤ (runLoopAux (fun _ => "X") (fun _ => 0) 0 ["a", "b"] 0 ⟨0, [], [], []⟩).time :=
  ⟨(claim_C10_invalid_lines_consume_slots (fun _ => "X") (fun _ => 0) 0
      (fun _ => le_refl 0) ["a", "b"] (by decide) (by decide)).1,
   (claim_C10_invalid_lines_consume_slots (fun _ => "X") (fun _ => 0) 0
      (fun _ => le_refl 0) ["a", "b"] (by decide) (by decide)).2.2⟩

/-- C5: a line whose trimmed string has length ≠ 44 or contains a
non-digit character yields the invalid marker (never raises): the loop
emits exactly one placeholder row with every derived field set to
"Chave Inválida" and makes no classification call for it. -/
theorem claim_C5_invalid_line (key : String)
    (h : key.length ≠ 44 ∨ key.toList.all Char.isDigit = false) :
    (∀ classify : String → String, iterRow classify key = invalidRow key)
    ∧ (∀ (classify : String → String) (dur : String → ℚ) (start : ℚ)
         (i : Nat) (st : BatchState),
        (runLoopAux classify dur start [key] i st).rows = st.rows ++ [invalidRow key]
        ∧ (runLoopAux classify dur start [key] i st).calls = st.calls)
    ∧ ((invalidRow key).chave = key
       ∧ (invalidRow key).uf = "Chave Inválida"
       ∧ (invalidRow key).anoMesEmissao = "Chave Inválida"
       ∧ (invalidRow key).cnpjEmitente = "Chave Inválida"
       ∧ (invalidRow key).modeloDoc = "Chave Inválida"
       ∧ (invalidRow key).serie = "Chave Inválida"
       ∧ (invalidRow key).numeroNfe = "Chave Inválida"
       ∧ (invalidRow key).tipoEmissao = "Chave Inválida"
       ∧ (invalidRow key).regime = "Chave Inválida") := by
  have hk : keyInvalid key = true := by
    rcases h with h | h
    · simp [keyInvalid, bne_iff_ne, h]
    · have hpy : pyIsDigit key = false := by
        unfold pyIsDigit
        rw [h, Bool.and_false]
      simp [keyInvalid, hpy]
  refine ⟨fun classify => by simp [iterRow, hk], fun classify dur start i st => ?_,
    rfl, rfl, rfl, rfl, rfl, rfl, rfl, rfl, rfl⟩
  rw [runLoopAux_cons_invalid classify dur start key [] i st hk, runLoopAux_nil]
  exact ⟨rfl, rfl⟩

/-- Witness for C5: a 3-character line. -/
theorem claim_C5_invalid_line_witness :
    iterRow (fun _ => "X") "123" = invalidRow "123"
    ∧ (invalidRow "123").uf = "Chave Inválida" :=
  ⟨(claim_C5_invalid_line "123" (Or.inl (by decide))).1 (fun _ => "X"),
   (claim_C5_invalid_line "123" (Or.inl (by decide))).2.2.2.1⟩

/-- C8: for every accepted batch, the output table has exactly one row per
non-blank input line, in input order (row j's access key is line j, no
reordering or deduplication), and the exported columns are exactly
Access Key, Region (UF), Emission Year/Month, Issuer Tax Id, Document
Model, Series, Document Number, Emission Type, Tax Regime, in that
order. -/
theorem claim_C8_row_order_columns (classify : String → String) (dur : String → ℚ)
    (start : ℚ) (input : String) (hne : pyStrip input ≠ "")
    (hcap : (cleaned_keys input).length ≤ 400) :
    batchRows (process_batch classify dur start input)
        = (cleaned_keys input).map (iterRow classify)
    ∧ (batchRows (process_batch classify dur start input)).length
        = (cleaned_keys input).length
    ∧ (∀ k, (iterRow classify k).chave = k)
    ∧ column_order = ["Chave de Acesso", "UF", "Ano/Mês Emissão", "CNPJ Emitente",
        "Modelo Doc.", "Série", "Número NF-e", "Tipo Emissão", "Regime Tributário"]
    ∧ (∀ r, rowCells r = [r.chave, r.uf, r.anoMesEmissao, r.cnpjEmitente, r.modeloDoc,
        r.serie, r.numeroNfe, r.tipoEmissao, r.regime])
    ∧ (∀ rows, exportTable rows = column_order :: rows.map rowCells) := by
  have hproc : process_batch classify dur start input
      = .processed (runLoopAux classify dur start (cleaned_keys input) 0
          ⟨start, [], [], []⟩) := by
    unfold process_batch
    rw [if_neg hne, if_neg (by omega)]
  have hrows : batchRows (process_batch classify dur start input)
      = (cleaned_keys input).map (iterRow classify) := by
    rw [hproc]
    show (runLoopAux classify dur start (cleaned_keys input) 0 ⟨start, [], [], []⟩).rows = _
    rw [runLoopAux_rows]
    simp
  refine ⟨hrows, by rw [hrows]; simp, fun k => ?_, rfl, fun r => rfl, fun rows => rfl⟩
  unfold iterRow
  split
  · rfl
  · rfl

/-- Witness for C8: a two-line batch. -/
theorem claim_C8_row_order_columns_witness :
    batchRows (process_batch (fun _ => "X") (fun _ => 0) 0 "1\n2")
      = (cleaned_keys "1\n2").map (iterRow (fun _ => "X"))
    ∧ column_order = ["Chave de Acesso", "UF", "Ano/Mês Emissão", "CNPJ Emitente",
        "Modelo Doc.", "Série", "Número NF-e", "Tipo Emissão", "Regime Tributário"] :=
  ⟨(claim_C8_row_order_columns (fun _ => "X") (fun _ => 0) 0 "1\n2"
      (by decide) (by decide)).1,
   (claim_C8_row_order_columns (fun _ => "X") (fun _ => 0) 0 "1\n2"
      (by decide) (by decide)).2.2.2.1⟩

/-- C4: an input that strips to the empty string is rejected as empty, and
a batch with more than 400 non-blank lines is rejected as too large; both
rejections produce no rows and no classification calls.  A batch of up to
400 non-blank lines (in particular exactly 400) is accepted and
processed. -/
theorem claim_C4_batch_validation (classify : String → String) (dur : String → ℚ)
    (start : ℚ) :
    (∀ input : String, pyStrip input = "" →
       process_batch classify dur start input = .emptyInput
       ∧ batchCalls (process_batch classify dur start input) = []
       ∧ batchRows (process_batch classify dur start input) = [])
    ∧ (∀ input : String, (cleaned_keys input).length > 400 →
       process_batch classify dur start input = .tooLarge (cleaned_keys input).length
       ∧ batchCalls (process_batch classify dur start input) = []
       ∧ batchRows (process_batch classify dur start input) = [])
    ∧ (∀ input : String, pyStrip input ≠ "" → (cleaned_keys input).length ≤ 400 →
       ∃ st, process_batch classify dur start input = .processed st) := by
  refine ⟨fun input h => ?_, fun input h => ?_, fun input h1 h2 => ?_⟩
  · have hp : process_batch classify dur start input = .emptyInput := by
      unfold process_batch
      rw [if_pos h]
    exact ⟨hp, by rw [hp]; rfl, by rw [hp]; rfl⟩
  · have hne : pyStrip input ≠ "" := by
      intro hempty
      have hkeys : cleaned_keys input = [] := by
        unfold cleaned_keys
        rw [hempty]
        decide
      rw [hkeys] at h
      simp at h
    have hp : process_batch classify dur start input
        = .tooLarge (cleaned_keys input).length := by
      unfold process_batch
      rw [if_neg hne, if_pos h]
    exact ⟨hp, by rw [hp]; rfl, by rw [hp]; rfl⟩
  · refine ⟨runLoopAux classify dur start (cleaned_keys input) 0 ⟨start, [], [], []⟩, ?_⟩
    unfold process_batch
    rw [if_neg h1, if_neg (by omega)]

/-- The text-area input consisting of `n` lines "1". -/
def batchInputOnes (n : Nat) : String :=
  (List.intersperse '\n' (List.replicate n '1')).asString

/-- Witness for C4: the empty input, a 401-line input, and a 400-line
input. -/
theorem claim_C4_batch_validation_witness :
    process_batch (fun _ => "X") (fun _ => 0) 0 "" = .emptyInput
    ∧ process_batch (fun _ => "X") (fun _ => 0) 0 (batchInputOnes 401)
        = .tooLarge (cleaned_keys (batchInputOnes 401)).length
    ∧ (∃ st, process_batch (fun _ => "X") (fun _ => 0) 0 (batchInputOnes 400)
        = .processed st) :=
  ⟨((claim_C4_batch_validation (fun _ => "X") (fun _ => 0) 0).1 "" rfl).1,
   ((claim_C4_batch_validation (fun _ => "X") (fun _ => 0) 0).2.1 (batchInputOnes 401)
      (by set_option maxRecDepth 100000 in decide)).1,
   (claim_C4_batch_validation (fun _ => "X") (fun _ => 0) 0).2.2 (batchInputOnes 400)
      (by set_option maxRecDepth 100000 in decide)
      (by set_option maxRecDepth 100000 in decide)⟩

end DadosNF
